import Mathlib

/-!
Verification of the video transcoding / adaptive-splitting pipeline
(`VideoProcessor` in the repository's services module).

The JavaScript source is shallowly embedded: every pipeline method becomes a
Lean function over an explicit system state `Sys` (the set of files the
pipeline has created, plus the ordered trace of external-tool invocations).
Outcomes of external subprocesses (ffprobe, ffmpeg screenshot / encode /
segment extraction, `fs.stat`) are supplied by an `Env` oracle, so that a
single run of a pipeline function is a pure computation
`Sys → Except String α × Sys` — errors carry the thrown message and, as on a
real filesystem, the state at the moment of failure survives.

JavaScript numbers are modelled as `ℚ`; file sizes as `ℕ`; JS object fields
that may be `undefined` as `Option`; a JS value that can also be
`Infinity`/`NaN` (the `eval`-computed frame rate) gets its own sum type.
-/

namespace UploadCloud

/-- One external-tool invocation performed by the pipeline, as recorded in the
run trace.  `capture ts` records the screenshot request with its timestamp
argument (`timestamps: [this.frameCaptureTime]`); `extract start dur` records
a segment extraction with its `setStartTime`/`setDuration` arguments;
`analyze`, `compress` and `split` mark completion of the probe, the encode and
the size-check/split stage respectively. -/
inductive Step where
  | analyze : Step
  | capture : ℚ → Step
  | compress : Step
  | extract : ℚ → ℚ → Step
  | split : Step
deriving DecidableEq, Repr

/-- System state threaded through a pipeline run: the files currently present
that the pipeline has written (newest first), and the trace of completed
steps in order. -/
structure Sys where
  files : List String
  trace : List Step
deriving DecidableEq, Repr

/-- Append a completed step to the trace. -/
def pushStepS (e : Step) (s : Sys) : Sys := { s with trace := s.trace ++ [e] }

/-- Record creation of a file. -/
def addFileS (p : String) (s : Sys) : Sys := { s with files := p :: s.files }

/-- Model of `fs.remove p`: the file is no longer present. -/
def fsRemoveS (p : String) (s : Sys) : Sys :=
  { s with files := s.files.filter (fun q => decide (q ≠ p)) }

/-- A pipeline computation: state in, `Except`-style result plus state out.
An error result carries the JavaScript `Error` message. -/
abbrev M (α : Type) : Type := Sys → Except String α × Sys

/-- Model of `path.join(a, b)`. -/
def pathJoin (a b : String) : String := a ++ "/" ++ b

/-- Split a character list at every occurrence of `c` (the accumulator holds
the current segment reversed). -/
def splitOnCharList (c : Char) : List Char → List Char → List (List Char)
  | [], acc => [acc.reverse]
  | x :: xs, acc =>
      if x = c then acc.reverse :: splitOnCharList c xs []
      else splitOnCharList c xs (x :: acc)

/-- Split a string at every occurrence of the character `c`. -/
def splitOnChar (c : Char) (s : String) : List String :=
  (splitOnCharList c s.toList []).map List.asString

/-- Model of `path.basename(p)`: the last `/`-separated component. -/
def baseNameOf (p : String) : String := (splitOnChar '/' p).getLastD p

/-- Model of `path.parse(fileName).name`: the file name with its last
extension removed. -/
def parseNameBase (fileName : String) : String :=
  match splitOnChar '.' fileName with
  | [] => fileName
  | [x] => x
  | xs => String.intercalate "." xs.dropLast

/-- JavaScript `x || d` for an optional string `x`: `undefined` and the empty
string are falsy and select the default. -/
def jsOrDefaultStr (o : Option String) (d : String) : String :=
  match o with
  | some s => if s = "" then d else s
  | none => d

/-- JavaScript `x || d` for the result of `parseInt`: `NaN` (modelled `none`)
and `0` are falsy and select the default. -/
def jsOrInt (o : Option Int) (d : Int) : Int :=
  match o with
  | some n => if n = 0 then d else n
  | none => d

/-- Numeric value of a digit-only list of characters. -/
def natOfDigits (cs : List Char) : ℕ :=
  cs.foldl (fun a c => a * 10 + (c.toNat - 48)) 0

/-- Strip leading and trailing whitespace from a character list. -/
def trimChars (cs : List Char) : List Char :=
  ((cs.dropWhile Char.isWhitespace).reverse.dropWhile Char.isWhitespace).reverse

/-- Model of JavaScript `parseInt(s)` (radix 10): skip surrounding
whitespace, read an optional sign and then the longest leading digit run;
`NaN` (no digits at all) is modelled as `none`. -/
def jsParseInt (s : String) : Option Int :=
  match trimChars s.toList with
  | '-' :: rest =>
      if (rest.takeWhile Char.isDigit).isEmpty then none
      else some (-(natOfDigits (rest.takeWhile Char.isDigit) : Int))
  | '+' :: rest =>
      if (rest.takeWhile Char.isDigit).isEmpty then none
      else some (natOfDigits (rest.takeWhile Char.isDigit) : Int)
  | cs =>
      if (cs.takeWhile Char.isDigit).isEmpty then none
      else some (natOfDigits (cs.takeWhile Char.isDigit) : Int)

/-- Is this character list a JavaScript integer literal token (an optional
sign followed by at least one digit)? -/
def isIntToken (cs : List Char) : Bool :=
  !cs.isEmpty && cs.all Char.isDigit

/-- Parse a `/`-separated token of a frame-rate string as an integer
literal. -/
def intOfToken : List Char → Option Int
  | '-' :: rest => if isIntToken rest then some (-(natOfDigits rest : Int)) else none
  | '+' :: rest => if isIntToken rest then some ((natOfDigits rest : Int)) else none
  | cs => if isIntToken cs then some ((natOfDigits cs : Int)) else none

/-- A JavaScript number produced by evaluating a frame-rate string: a finite
value, one of the two infinities, `NaN`, or a thrown evaluation error. -/
inductive FpsResult where
  | num : ℚ → FpsResult
  | infinity : FpsResult
  | negInfinity : FpsResult
  | nan : FpsResult
  | evalThrew : FpsResult
deriving DecidableEq, Repr

/-- One JavaScript `/` division step with IEEE special values:
division by zero yields a signed infinity (or `NaN` from `0/0`). -/
def fpsDiv : FpsResult → Int → FpsResult
  | FpsResult.nan, _ => FpsResult.nan
  | FpsResult.evalThrew, _ => FpsResult.evalThrew
  | FpsResult.num q, d =>
      if d = 0 then
        if q = 0 then FpsResult.nan
        else if 0 < q then FpsResult.infinity else FpsResult.negInfinity
      else FpsResult.num (q / (d : ℚ))
  | FpsResult.infinity, d =>
      if 0 ≤ d then FpsResult.infinity else FpsResult.negInfinity
  | FpsResult.negInfinity, d =>
      if 0 ≤ d then FpsResult.negInfinity else FpsResult.infinity

/-- Model of the source's `eval(videoStream?.r_frame_rate || '0')` (line 592)
on the integer-rational strings ffprobe emits ("30000/1001", "25", also
chained "a/b/c", left-associated as JavaScript does): each `/`-separated
token is an integer literal and the divisions are performed as floating
point, so a zero denominator yields an infinity or `NaN`, not an error.
A token that is not an integer literal makes `eval` throw, modelled as
`FpsResult.evalThrew`. -/
def jsEvalFrameRate (s : String) : FpsResult :=
  match (splitOnCharList '/' s.toList []).mapM intOfToken with
  | some (n :: ds) => ds.foldl fpsDiv (FpsResult.num (n : ℚ))
  | _ => FpsResult.evalThrew

/-- Follows the spec's words (§4.1/§9), for comparison with
`jsEvalFrameRate`: "split on `/`, parse both sides as integers, divide as
floating point, reject non-numeric or zero-denominator input as an
`AnalysisError`" (`none`). -/
def specParseFrameRate (s : String) : Option ℚ :=
  match splitOnCharList '/' s.toList [] with
  | [a, b] =>
      match intOfToken a, intOfToken b with
      | some n, some d => if d = 0 then none else some ((n : ℚ) / (d : ℚ))
      | _, _ => none
  | _ => none

/-- The encoding preset, as read from `video-preset.json` (fields used by
`compressVideo`). -/
structure Preset where
  videoCodec : String
  audioCodec : String
  resolution : String
  bitrate : ℚ
  fps : ℚ
  audioChannels : ℕ
  audioSampleRate : ℕ
deriving DecidableEq, Repr

/-- Translation of `loadPreset` (lines 521-537): `readFileSync` + `JSON.parse`
inside a `try`; the combined outcome is the `Option Preset` argument
(`none` = any read or parse failure).  On failure a warning is logged and the
hard-coded default preset is returned; the function never throws. -/
def loadPreset (fileResult : Option Preset) : Preset :=
  match fileResult with
  | some p => p
  | none =>
      { videoCodec := "h264"
        audioCodec := "aac"
        resolution := "1920x1080"
        bitrate := 974
        fps := 29.97
        audioChannels := 2
        audioSampleRate := 48000 }

/-- The three environment variables the constructor reads, each possibly
unset. -/
structure ProcessEnv where
  maxVideoSizeMB : Option String
  frameCaptureTime : Option String
  videoPresetPath : Option String
deriving DecidableEq, Repr

/-- The per-instance configuration of a `VideoProcessor`. -/
structure VideoProcessor where
  maxVideoSizeMB : ℚ
  frameCaptureTime : ℚ
  presetPath : String
  preset : Preset
deriving DecidableEq, Repr

/-- Translation of the constructor (lines 513-519):
`parseInt(process.env.MAX_VIDEO_SIZE_MB) || 98`,
`parseInt(process.env.FRAME_CAPTURE_TIME) || 2`,
`process.env.VIDEO_PRESET_PATH || "./video-preset.json"` (the source writes
the default path as a single-quoted literal), and
`this.preset = this.loadPreset()` whose file-read outcome is `presetFile`.
The fields are assigned once here and nothing in the class reassigns them. -/
def VideoProcessor.make (penv : ProcessEnv) (presetFile : Option Preset) :
    VideoProcessor :=
  { maxVideoSizeMB := (jsOrInt (penv.maxVideoSizeMB.bind jsParseInt) 98 : Int)
    frameCaptureTime := (jsOrInt (penv.frameCaptureTime.bind jsParseInt) 2 : Int)
    presetPath := jsOrDefaultStr penv.videoPresetPath "./video-preset.json"
    preset := loadPreset presetFile }

/-- One stream record of an ffprobe result; every field the source touches
through `?.` may be absent. -/
structure ProbeStream where
  codec_type : String
  codec_name : Option String
  width : Option ℕ
  height : Option ℕ
  r_frame_rate : Option String
  channels : Option ℕ
  sample_rate : Option ℕ
deriving DecidableEq, Repr

/-- The `format` record of an ffprobe result. -/
structure ProbeFormat where
  duration : ℚ
  size : ℕ
  bit_rate : ℕ
deriving DecidableEq, Repr

/-- An ffprobe metadata record. -/
structure ProbeData where
  streams : List ProbeStream
  format : ProbeFormat
deriving DecidableEq, Repr

/-- The metadata object `analyzeVideo` resolves with (lines 585-595). -/
structure VideoInfo where
  duration : ℚ
  size : ℕ
  bitrate : ℕ
  videoCodec : Option String
  audioCodec : Option String
  resolution : String
  fps : FpsResult
  audioChannels : Option ℕ
  audioSampleRate : Option ℕ
deriving DecidableEq, Repr

/-- Oracle for every external effect a run consults: the ffprobe result per
path, the `fs.stat` result per path (error message or size in bytes), the
outcomes of the screenshot / encode subprocesses and of segment extraction
per output path (`none` = success, `some msg` = subprocess error message),
and the `TEMP_DIR` environment variable. -/
structure Env where
  probe : String → Except String ProbeData
  statSize : String → Except String ℕ
  screenshotErr : Option String
  compressErr : Option String
  extractErr : String → Option String
  tempDirVar : Option String

/-- Model of `process.env.TEMP_DIR || "temp"` (lines 601, 626, 696; the
source writes the default as a single-quoted literal). -/
def tempDir (env : Env) : String := jsOrDefaultStr env.tempDirVar "temp"

/-- Rendering of a possibly-`undefined` number inside a JS template
literal. -/
def optNatStr (o : Option ℕ) : String :=
  match o with
  | some n => toString n
  | none => "undefined"

/-- Translation of `analyzeVideo` (lines 574-598): reject with
`Failed to analyze video: …` exactly when ffprobe errors; otherwise build the
metadata object from the first video and audio streams — with no check that a
video stream exists or that the duration is positive.  The frame rate is
computed by `eval` of the reported rational string (line 592). -/
def analyzeVideo (env : Env) (inputPath : String) : M VideoInfo := fun s =>
  match env.probe inputPath with
  | Except.error e => (Except.error ("Failed to analyze video: " ++ e), s)
  | Except.ok md =>
      let videoStream := md.streams.find? (fun st => st.codec_type = "video")
      let audioStream := md.streams.find? (fun st => st.codec_type = "audio")
      (Except.ok
        { duration := md.format.duration
          size := md.format.size
          bitrate := md.format.bit_rate
          videoCodec := videoStream.bind (fun st => st.codec_name)
          audioCodec := audioStream.bind (fun st => st.codec_name)
          resolution := optNatStr (videoStream.bind (fun st => st.width)) ++ "x"
            ++ optNatStr (videoStream.bind (fun st => st.height))
          fps := jsEvalFrameRate
            (jsOrDefaultStr (videoStream.bind (fun st => st.r_frame_rate)) "0")
          audioChannels := audioStream.bind (fun st => st.channels)
          audioSampleRate := audioStream.bind (fun st => st.sample_rate) },
        pushStepS Step.analyze s)

/-- Translation of `captureFrame` (lines 600-623): the screenshot is requested
at `this.frameCaptureTime` unconditionally (`timestamps:
[this.frameCaptureTime]`, fixed size 1280x720); on subprocess success the
thumbnail file exists and its path is returned, on failure the promise
rejects with `Failed to capture frame: …`. -/
def captureFrame (p : VideoProcessor) (env : Env)
    (_inputPath origName : String) : M String := fun s =>
  let dir := tempDir env
  let thumbnailName := parseNameBase origName ++ "_thumbnail.jpg"
  let thumbnailPath := pathJoin dir thumbnailName
  match env.screenshotErr with
  | some e => (Except.error ("Failed to capture frame: " ++ e), s)
  | none =>
      (Except.ok thumbnailPath,
        addFileS thumbnailPath (pushStepS (Step.capture p.frameCaptureTime) s))

/-- Translation of `compressVideo` (lines 625-661): one ffmpeg encode with the
preset's codec/resolution/bitrate/fps/audio parameters plus
`-preset medium -crf 23 -movflags +faststart`; on success the output file
`<name>_processed.mp4` exists in the temp directory, on failure the promise
rejects with `Failed to compress video: …`. -/
def compressVideo (_p : VideoProcessor) (env : Env)
    (_inputPath origName : String) : M String := fun s =>
  let dir := tempDir env
  let outputName := parseNameBase origName ++ "_processed.mp4"
  let outputPath := pathJoin dir outputName
  match env.compressErr with
  | some e => (Except.error ("Failed to compress video: " ++ e), s)
  | none => (Except.ok outputPath, addFileS outputPath (pushStepS Step.compress s))

/-- Translation of `getFileSize` (lines 746-753): `fs.stat`, rethrown as
`Failed to get file size: …` on error. -/
def getFileSize (env : Env) (filePath : String) : M ℕ := fun s =>
  match env.statSize filePath with
  | Except.error e => (Except.error ("Failed to get file size: " ++ e), s)
  | Except.ok n => (Except.ok n, s)

/-- An element of the artifact list `processVideo` returns.  The optional
`part`/`totalParts` fields are present exactly when the source adds those keys
(split parts only). -/
structure Artifact where
  path : String
  name : String
  type : String
  size : ℕ
  part : Option ℕ
  totalParts : Option ℕ
deriving DecidableEq, Repr

/-- Translation of `extractVideoSegment` (lines 725-744): one ffmpeg
invocation with `setStartTime(startTime)`, `setDuration(endTime - startTime)`,
stream copy (`-c copy -avoid_negative_ts make_zero`); on success the output
file exists, on failure the promise rejects with
`Failed to extract video segment: …`. -/
def extractVideoSegment (env : Env) (_inputPath outputPath : String)
    (startTime endTime : ℚ) : M String := fun s =>
  match env.extractErr outputPath with
  | some e => (Except.error ("Failed to extract video segment: " ++ e), s)
  | none =>
      (Except.ok outputPath,
        addFileS outputPath
          (pushStepS (Step.extract startTime (endTime - startTime)) s))

/-- Name of the `i`-th part file: `` `${baseName}_part${i}.mp4` `` (line
703, where the source passes `i + 1`). -/
def mkPartName (base : String) (i : ℕ) : String :=
  base ++ "_part" ++ toString i ++ ".mp4"

/-- Translation of the `for` loop of `splitVideo` (lines 700-717): `i` is the
loop counter, `r` the remaining iterations (`partsNeeded - i`), `parts` the
accumulator pushed onto by each iteration. -/
def splitLoop (env : Env) (videoPath dir base : String) (dpp : ℚ) (n : ℕ) :
    ℕ → ℕ → List Artifact → M (List Artifact)
  | _, 0, parts => fun s => (Except.ok parts, s)
  | i, r + 1, parts => fun s =>
      let startTime : ℚ := (i : ℚ) * dpp
      let endTime : ℚ := ((i : ℚ) + 1) * dpp
      let partName := mkPartName base (i + 1)
      let partPath := pathJoin dir partName
      match extractVideoSegment env videoPath partPath startTime endTime s with
      | (Except.error e, s1) => (Except.error e, s1)
      | (Except.ok _, s1) =>
          match getFileSize env partPath s1 with
          | (Except.error e, s2) => (Except.error e, s2)
          | (Except.ok partSize, s2) =>
              splitLoop env videoPath dir base dpp n (i + 1) r
                (parts ++ [{ path := partPath
                             name := partName
                             type := "video"
                             size := partSize
                             part := some (i + 1)
                             totalParts := some n }]) s2

/-- Translation of `splitVideo` (lines 684-723): re-probe the processed file
for its duration, compute `partsNeeded = Math.ceil(fileSizeMB /
this.maxVideoSizeMB)` and `durationPerPart = duration / partsNeeded`, extract
each part with the loop, then `fs.remove` the pre-split file and return the
parts. -/
def splitVideo (p : VideoProcessor) (env : Env)
    (videoPath origName : String) : M (List Artifact) := fun s =>
  match analyzeVideo env videoPath s with
  | (Except.error e, s1) => (Except.error e, s1)
  | (Except.ok info, s1) =>
      match getFileSize env videoPath s1 with
      | (Except.error e, s2) => (Except.error e, s2)
      | (Except.ok fileSize, s2) =>
          let fileSizeMB : ℚ := (fileSize : ℚ) / (1024 * 1024)
          let partsNeeded : ℕ := (⌈fileSizeMB / p.maxVideoSizeMB⌉).toNat
          let durationPerPart : ℚ := info.duration / (partsNeeded : ℚ)
          match splitLoop env videoPath (tempDir env) (parseNameBase origName)
              durationPerPart partsNeeded 0 partsNeeded [] s2 with
          | (Except.error e, s3) => (Except.error e, s3)
          | (Except.ok parts, s3) => (Except.ok parts, fsRemoveS videoPath s3)

/-- Translation of `checkAndSplitVideo` (lines 663-682): stat the processed
file; if `fileSize / (1024*1024) <= this.maxVideoSizeMB` return the single
artifact wrapping it unchanged (no `part`/`totalParts` keys), else delegate to
`splitVideo`.  The `split` trace event marks completion of this
decide-and-split stage. -/
def checkAndSplitVideo (p : VideoProcessor) (env : Env)
    (videoPath origName : String) : M (List Artifact) := fun s =>
  match getFileSize env videoPath s with
  | (Except.error e, s1) => (Except.error e, s1)
  | (Except.ok fileSize, s1) =>
      let fileSizeMB : ℚ := (fileSize : ℚ) / (1024 * 1024)
      if fileSizeMB ≤ p.maxVideoSizeMB then
        (Except.ok [{ path := videoPath
                      name := baseNameOf videoPath
                      type := "video"
                      size := fileSize
                      part := none
                      totalParts := none }], pushStepS Step.split s1)
      else
        match splitVideo p env videoPath origName s1 with
        | (Except.error e, s2) => (Except.error e, s2)
        | (Except.ok parts, s2) => (Except.ok parts, pushStepS Step.split s2)

/-- Translation of `processVideo` (lines 539-572): analyze, capture the
thumbnail, compress, check-and-split, then push the thumbnail artifact onto
the video list and return it.  The `catch` clause only logs and rethrows the
failure wrapped as `Failed to process video: …` — it deletes nothing, so the
state at the failure point is returned unchanged. -/
def processVideo (p : VideoProcessor) (env : Env)
    (inputPath origName : String) : M (List Artifact) := fun s =>
  match analyzeVideo env inputPath s with
  | (Except.error e, s1) => (Except.error ("Failed to process video: " ++ e), s1)
  | (Except.ok _info, s1) =>
      match captureFrame p env inputPath origName s1 with
      | (Except.error e, s2) => (Except.error ("Failed to process video: " ++ e), s2)
      | (Except.ok thumbnailPath, s2) =>
          match compressVideo p env inputPath origName s2 with
          | (Except.error e, s3) =>
              (Except.error ("Failed to process video: " ++ e), s3)
          | (Except.ok processedPath, s3) =>
              match checkAndSplitVideo p env processedPath origName s3 with
              | (Except.error e, s4) =>
                  (Except.error ("Failed to process video: " ++ e), s4)
              | (Except.ok processedVideos, s4) =>
                  match getFileSize env thumbnailPath s4 with
                  | (Except.error e, s5) =>
                      (Except.error ("Failed to process video: " ++ e), s5)
                  | (Except.ok thumbSize, s5) =>
                      (Except.ok (processedVideos ++
                        [{ path := thumbnailPath
                           name := parseNameBase origName ++ "_thumbnail.jpg"
                           type := "thumbnail"
                           size := thumbSize
                           part := none
                           totalParts := none }]), s5)

/-! ### Concrete fixtures used by counterexamples and witnesses -/

/-- A processor with the documented default configuration (what the
constructor yields when no environment variable is set and the preset file is
missing). -/
def procD : VideoProcessor :=
  { maxVideoSizeMB := 98
    frameCaptureTime := 2
    presetPath := "./video-preset.json"
    preset := loadPreset none }

/-- Probe result: a one-second video with one video and one audio stream. -/
def pdDur1 : ProbeData :=
  { streams := [{ codec_type := "video", codec_name := some "h264",
                  width := some 1920, height := some 1080,
                  r_frame_rate := some "30000/1001", channels := none,
                  sample_rate := none },
                { codec_type := "audio", codec_name := some "aac",
                  width := none, height := none, r_frame_rate := none,
                  channels := some 2, sample_rate := some 48000 }]
    format := { duration := 1, size := 5, bit_rate := 100 } }

/-- Environment in which every external tool succeeds and every file is tiny
(5 bytes), so no split happens. -/
def envHappy : Env :=
  { probe := fun _ => Except.ok pdDur1
    statSize := fun _ => Except.ok 5
    screenshotErr := none
    compressErr := none
    extractErr := fun _ => none
    tempDirVar := none }

/-- Probe result with no streams at all and a zero duration. -/
def pdNoStream : ProbeData :=
  { streams := [], format := { duration := 0, size := 0, bit_rate := 0 } }

/-- Environment whose probe succeeds but reports no streams and zero
duration. -/
def envNoStream : Env :=
  { probe := fun _ => Except.ok pdNoStream
    statSize := fun _ => Except.ok 5
    screenshotErr := none
    compressErr := none
    extractErr := fun _ => none
    tempDirVar := none }

/-- Probe result whose video stream reports the degenerate frame rate
"30/0". -/
def pdZeroDen : ProbeData :=
  { streams := [{ codec_type := "video", codec_name := some "h264",
                  width := some 1920, height := some 1080,
                  r_frame_rate := some "30/0", channels := none,
                  sample_rate := none }]
    format := { duration := 60, size := 5, bit_rate := 100 } }

/-- Environment whose probe reports the "30/0" frame rate. -/
def envZeroDen : Env :=
  { probe := fun _ => Except.ok pdZeroDen
    statSize := fun _ => Except.ok 5
    screenshotErr := none
    compressErr := none
    extractErr := fun _ => none
    tempDirVar := none }

/-- Environment where the thumbnail succeeds and the encode subprocess then
fails. -/
def envCompressFail : Env :=
  { probe := fun _ => Except.ok pdDur1
    statSize := fun _ => Except.ok 5
    screenshotErr := none
    compressErr := some "boom"
    extractErr := fun _ => none
    tempDirVar := none }

/-- Probe result for a 300-second video (as re-probed before splitting). -/
def pdBig : ProbeData :=
  { streams := [], format := { duration := 300, size := 262144000, bit_rate := 100 } }

/-- Environment where the transcoded file is 250 MB (so it splits into 3
parts of 100 s each) and everything succeeds. -/
def envBig : Env :=
  { probe := fun _ => Except.ok pdBig
    statSize := fun q => Except.ok (if q = "temp/video_processed.mp4" then 262144000 else 5)
    screenshotErr := none
    compressErr := none
    extractErr := fun _ => none
    tempDirVar := none }

/-- Environment like `envBig` except that extraction of the second segment
fails. -/
def envSplitFail : Env :=
  { probe := fun _ => Except.ok pdBig
    statSize := fun q => Except.ok (if q = "temp/video_processed.mp4" then 262144000 else 5)
    screenshotErr := none
    compressErr := none
    extractErr := fun q => if q = "temp/video_part2.mp4" then some "segfault" else none
    tempDirVar := none }

/-- The initial system state: no pipeline files, empty trace. -/
def sysInit : Sys := ⟨[], []⟩

/-! ### Evaluation lemmas for the concrete fixtures -/

/-- Full evaluation of the happy-path run (tiny file, no split). -/
lemma run_happy_eq :
    processVideo procD envHappy "in.mp4" "video.mp4" sysInit =
      (Except.ok
        [{ path := "temp/video_processed.mp4", name := "video_processed.mp4",
           type := "video", size := 5, part := none, totalParts := none },
         { path := "temp/video_thumbnail.jpg", name := "video_thumbnail.jpg",
           type := "thumbnail", size := 5, part := none, totalParts := none }],
       { files := ["temp/video_processed.mp4", "temp/video_thumbnail.jpg"],
         trace := [Step.analyze, Step.capture 2, Step.compress, Step.split] }) := by
  have hle : ((5 : ℚ)) / (1024 * 1024) ≤ (98 : ℚ) := by norm_num
  simp +decide [processVideo, analyzeVideo, captureFrame, compressVideo,
    checkAndSplitVideo, getFileSize, envHappy, procD, tempDir, jsOrDefaultStr,
    pathJoin, parseNameBase, splitOnChar, splitOnCharList, baseNameOf,
    pushStepS, addFileS, pdDur1, jsEvalFrameRate, intOfToken, isIntToken,
    natOfDigits, fpsDiv, optNatStr, sysInit, hle]

/-- Full evaluation of the splitting run: a 250 MB transcoded file against
the 98 MB ceiling splits into 3 parts of 100 s each. -/
lemma run_big_eq :
    processVideo procD envBig "in.mp4" "video.mp4" sysInit =
      (Except.ok
        [{ path := "temp/video_part1.mp4", name := "video_part1.mp4",
           type := "video", size := 5, part := some 1, totalParts := some 3 },
         { path := "temp/video_part2.mp4", name := "video_part2.mp4",
           type := "video", size := 5, part := some 2, totalParts := some 3 },
         { path := "temp/video_part3.mp4", name := "video_part3.mp4",
           type := "video", size := 5, part := some 3, totalParts := some 3 },
         { path := "temp/video_thumbnail.jpg", name := "video_thumbnail.jpg",
           type := "thumbnail", size := 5, part := none, totalParts := none }],
       { files := ["temp/video_part3.mp4", "temp/video_part2.mp4",
                   "temp/video_part1.mp4", "temp/video_thumbnail.jpg"],
         trace := [Step.analyze, Step.capture 2, Step.compress, Step.analyze,
                   Step.extract 0 100, Step.extract 100 100, Step.extract 200 100,
                   Step.split] }) := by
  have hgt : ¬ ((262144000 : ℚ) / (1024 * 1024) ≤ 98) := by norm_num
  have hn : (⌈(262144000 : ℚ) / (1024 * 1024) / 98⌉).toNat = 3 := by
    have hc : ⌈(262144000 : ℚ) / (1024 * 1024) / 98⌉ = 3 := by
      norm_num [Int.ceil_eq_iff]
    rw [hc]
    rfl
  simp +decide [processVideo, analyzeVideo, captureFrame, compressVideo,
    checkAndSplitVideo, splitVideo, splitLoop, extractVideoSegment, getFileSize,
    envBig, procD, tempDir, jsOrDefaultStr, pathJoin, parseNameBase, splitOnChar,
    splitOnCharList, baseNameOf, pushStepS, addFileS, fsRemoveS, pdBig,
    jsEvalFrameRate, intOfToken, isIntToken, natOfDigits, fpsDiv, optNatStr,
    sysInit, hgt, hn]
  norm_num

/-- Full evaluation of the run in which extraction of the second segment
fails: the job aborts, yet the thumbnail, the transcoded file and the first
segment are all still present. -/
lemma run_splitfail_eq :
    processVideo procD envSplitFail "in.mp4" "video.mp4" sysInit =
      (Except.error
        "Failed to process video: Failed to extract video segment: segfault",
       { files := ["temp/video_part1.mp4", "temp/video_processed.mp4",
                   "temp/video_thumbnail.jpg"],
         trace := [Step.analyze, Step.capture 2, Step.compress, Step.analyze,
                   Step.extract 0 100] }) := by
  have hgt : ¬ ((262144000 : ℚ) / (1024 * 1024) ≤ 98) := by norm_num
  have hn : (⌈(262144000 : ℚ) / (1024 * 1024) / 98⌉).toNat = 3 := by
    have hc : ⌈(262144000 : ℚ) / (1024 * 1024) / 98⌉ = 3 := by
      norm_num [Int.ceil_eq_iff]
    rw [hc]
    rfl
  simp +decide [processVideo, analyzeVideo, captureFrame, compressVideo,
    checkAndSplitVideo, splitVideo, splitLoop, extractVideoSegment, getFileSize,
    envSplitFail, procD, tempDir, jsOrDefaultStr, pathJoin, parseNameBase,
    splitOnChar, splitOnCharList, baseNameOf, pushStepS, addFileS, fsRemoveS,
    pdBig, jsEvalFrameRate, intOfToken, isIntToken, natOfDigits, fpsDiv,
    optNatStr, sysInit, hgt, hn]
  norm_num

/-- Environment whose probe fails outright. -/
def envProbeFail : Env :=
  { probe := fun _ => Except.error "EACCES"
    statSize := fun _ => Except.ok 5
    screenshotErr := none
    compressErr := none
    extractErr := fun _ => none
    tempDirVar := none }

/-- Is this trace event the thumbnail-capture step? -/
def isCaptureStep : Step → Bool
  | Step.capture _ => true
  | _ => false

/-- Is this trace event the transcode step? -/
def isCompressStep : Step → Bool
  | Step.compress => true
  | _ => false

/-! ### The claims -/

/-- C6 (confirmed): preset resolution never raises — it is a total function
of the read/parse outcome; on any read or parse failure it returns exactly
the documented default preset (h264, aac, 1920x1080, 974 kbps, 29.97 fps,
2 channels, 48000 Hz), and on success the parsed preset unchanged. -/
theorem claim6_loadPreset_default :
    loadPreset none =
      { videoCodec := "h264", audioCodec := "aac", resolution := "1920x1080",
        bitrate := 974, fps := 29.97, audioChannels := 2,
        audioSampleRate := 48000 }
    ∧ ∀ pr : Preset, loadPreset (some pr) = pr :=
  ⟨rfl, fun _ => rfl⟩

/-- C10 (confirmed): when the corresponding environment variable is unset or
non-numeric, the constructor fixes the size ceiling at 98, the capture
timestamp at 2 seconds and the preset path at "./video-preset.json"; the
fields are assigned once at construction (the embedding's processor record is
immutable and no pipeline function modifies it). -/
theorem claim10_constructor_defaults (penv : ProcessEnv)
    (presetFile : Option Preset) :
    (penv.maxVideoSizeMB.bind jsParseInt = none →
      (VideoProcessor.make penv presetFile).maxVideoSizeMB = 98)
    ∧ (penv.frameCaptureTime.bind jsParseInt = none →
      (VideoProcessor.make penv presetFile).frameCaptureTime = 2)
    ∧ (penv.videoPresetPath = none →
      (VideoProcessor.make penv presetFile).presetPath = "./video-preset.json") := by
  refine ⟨fun h => ?_, fun h => ?_, fun h => ?_⟩ <;>
    norm_num [VideoProcessor.make, jsOrInt, jsOrDefaultStr, h]

/-- Witness for C10 at the concrete environment
`MAX_VIDEO_SIZE_MB="abc"` (non-numeric), other variables unset. -/
theorem claim10_witness :
    (VideoProcessor.make ⟨some "abc", none, none⟩ none).maxVideoSizeMB = 98
    ∧ (VideoProcessor.make ⟨some "abc", none, none⟩ none).frameCaptureTime = 2
    ∧ (VideoProcessor.make ⟨some "abc", none, none⟩ none).presetPath
        = "./video-preset.json" :=
  ⟨(claim10_constructor_defaults ⟨some "abc", none, none⟩ none).1 (by decide),
   (claim10_constructor_defaults ⟨some "abc", none, none⟩ none).2.1 rfl,
   (claim10_constructor_defaults ⟨some "abc", none, none⟩ none).2.2 rfl⟩

/-- C4 (code_bug): the source computes the frame rate by `eval` of the
probe-reported string, not by the explicit split/parse/divide parser the spec
mandates.  On the zero-denominator input "30/0" the two disagree: `eval`
yields `Infinity` and analysis succeeds, while the spec's parser rejects the
input (an `AnalysisError`). -/
theorem claim4_eval_framerate_bug :
    jsEvalFrameRate "30/0" = FpsResult.infinity
    ∧ specParseFrameRate "30/0" = none
    ∧ (analyzeVideo envZeroDen "clip.mp4" sysInit).1 =
        Except.ok { duration := 60, size := 5, bitrate := 100,
                    videoCodec := some "h264", audioCodec := none,
                    resolution := "1920x1080", fps := FpsResult.infinity,
                    audioChannels := none, audioSampleRate := none } := by
  refine ⟨by decide, by decide, ?_⟩
  simp +decide [analyzeVideo, envZeroDen, pdZeroDen, optNatStr, jsOrDefaultStr,
    jsEvalFrameRate, splitOnCharList, intOfToken, isIntToken, natOfDigits,
    fpsDiv, sysInit, pushStepS]

/-- C5 counterexample: a probe that succeeds but reports no streams at all
and zero duration still resolves successfully — the metadata record carries
`none` codec fields, the resolution string "undefinedxundefined" and duration
0, where the claim demands an `AnalysisError`. -/
theorem claim5_counterexample :
    (analyzeVideo envNoStream "clip.mp4" sysInit).1 =
      Except.ok { duration := 0, size := 0, bitrate := 0, videoCodec := none,
                  audioCodec := none, resolution := "undefinedxundefined",
                  fps := FpsResult.num 0, audioChannels := none,
                  audioSampleRate := none } := by
  simp +decide [analyzeVideo, envNoStream, pdNoStream, optNatStr,
    jsOrDefaultStr, jsEvalFrameRate, splitOnCharList, intOfToken, isIntToken,
    natOfDigits, sysInit, pushStepS]

/-- C5 (corrected): `analyzeVideo` fails — with the probe error wrapped as
"Failed to analyze video: …" — exactly when the probe itself fails; when the
probe succeeds it resolves with the metadata as reported, performing no
video-stream or duration validation. -/
theorem claim5_analysis_error_iff_probe_error (env : Env) (path : String)
    (s : Sys) :
    (∀ e, env.probe path = Except.error e →
      (analyzeVideo env path s).1 =
        Except.error ("Failed to analyze video: " ++ e))
    ∧ (∀ md, env.probe path = Except.ok md →
      ∃ info, (analyzeVideo env path s).1 = Except.ok info
        ∧ info.duration = md.format.duration) := by
  constructor
  · intro e h
    simp [analyzeVideo, h]
  · intro md h
    refine ⟨{ duration := md.format.duration, size := md.format.size,
              bitrate := md.format.bit_rate,
              videoCodec := (md.streams.find? (fun st => st.codec_type = "video")).bind
                (fun st => st.codec_name),
              audioCodec := (md.streams.find? (fun st => st.codec_type = "audio")).bind
                (fun st => st.codec_name),
              resolution := optNatStr
                  ((md.streams.find? (fun st => st.codec_type = "video")).bind
                    (fun st => st.width)) ++ "x"
                ++ optNatStr
                  ((md.streams.find? (fun st => st.codec_type = "video")).bind
                    (fun st => st.height)),
              fps := jsEvalFrameRate (jsOrDefaultStr
                ((md.streams.find? (fun st => st.codec_type = "video")).bind
                  (fun st => st.r_frame_rate)) "0"),
              audioChannels := (md.streams.find? (fun st => st.codec_type = "audio")).bind
                (fun st => st.channels),
              audioSampleRate := (md.streams.find? (fun st => st.codec_type = "audio")).bind
                (fun st => st.sample_rate) }, ?_, rfl⟩
    simp [analyzeVideo, h]

/-- Witness for C5's corrected statement: a failing probe yields the wrapped
error, a successful probe yields the reported metadata. -/
theorem claim5_witness :
    (analyzeVideo envProbeFail "in.mp4" sysInit).1 =
      Except.error ("Failed to analyze video: " ++ "EACCES")
    ∧ ∃ info, (analyzeVideo envHappy "in.mp4" sysInit).1 = Except.ok info
        ∧ info.duration = pdDur1.format.duration :=
  ⟨(claim5_analysis_error_iff_probe_error envProbeFail "in.mp4" sysInit).1
      "EACCES" rfl,
   (claim5_analysis_error_iff_probe_error envHappy "in.mp4" sysInit).2
      pdDur1 rfl⟩

/-- C3 counterexample: for a one-second video with the default 2-second
capture timestamp, the encoder is invoked with timestamp 2 — no clamping into
[0, 1) happens anywhere in the successful run. -/
theorem claim3_counterexample :
    pdDur1.format.duration = 1
    ∧ (processVideo procD envHappy "in.mp4" "video.mp4" sysInit).2.trace
        = [Step.analyze, Step.capture 2, Step.compress, Step.split]
    ∧ ¬ ((2 : ℚ) < 1) := by
  refine ⟨rfl, ?_, by norm_num⟩
  rw [run_happy_eq]

/-- C3 (corrected): `captureFrame` passes the configured timestamp to the
encoder unmodified — the video duration is not even an input of the function,
so no clamping occurs — and it fails, with "Failed to capture frame: …",
exactly when the screenshot subprocess fails. -/
theorem claim3_unclamped_capture (p : VideoProcessor) (env : Env)
    (inputPath origName : String) (s : Sys) :
    (env.screenshotErr = none →
      captureFrame p env inputPath origName s =
        (Except.ok (pathJoin (tempDir env)
            (parseNameBase origName ++ "_thumbnail.jpg")),
         addFileS (pathJoin (tempDir env)
             (parseNameBase origName ++ "_thumbnail.jpg"))
           (pushStepS (Step.capture p.frameCaptureTime) s)))
    ∧ ∀ e, env.screenshotErr = some e →
      captureFrame p env inputPath origName s =
        (Except.error ("Failed to capture frame: " ++ e), s) := by
  constructor
  · intro h
    simp [captureFrame, h]
  · intro e h
    simp [captureFrame, h]

/-- Witness for C3's corrected statement at the default processor in the
happy-path environment. -/
theorem claim3_witness :
    captureFrame procD envHappy "in.mp4" "video.mp4" sysInit =
      (Except.ok (pathJoin (tempDir envHappy)
          (parseNameBase "video.mp4" ++ "_thumbnail.jpg")),
       addFileS (pathJoin (tempDir envHappy)
           (parseNameBase "video.mp4" ++ "_thumbnail.jpg"))
         (pushStepS (Step.capture procD.frameCaptureTime) sysInit)) :=
  (claim3_unclamped_capture procD envHappy "in.mp4" "video.mp4" sysInit).1 rfl

/-- C2 counterexample: when extraction of the second segment fails, the job
aborts with the wrapped error while the thumbnail, the transcoded file and
the first partial segment all remain on the filesystem — nothing is
deleted. -/
theorem claim2_counterexample :
    (processVideo procD envSplitFail "in.mp4" "video.mp4" sysInit).1 =
      Except.error
        "Failed to process video: Failed to extract video segment: segfault"
    ∧ "temp/video_thumbnail.jpg"
        ∈ (processVideo procD envSplitFail "in.mp4" "video.mp4" sysInit).2.files
    ∧ "temp/video_processed.mp4"
        ∈ (processVideo procD envSplitFail "in.mp4" "video.mp4" sysInit).2.files
    ∧ "temp/video_part1.mp4"
        ∈ (processVideo procD envSplitFail "in.mp4" "video.mp4" sysInit).2.files := by
  rw [run_splitfail_eq]
  exact ⟨rfl, by simp, by simp, by simp⟩

/-- C7 counterexample: a successful run's trace is Analyze, Capture,
Compress, Split — the thumbnail-capture step completes strictly before the
transcode step, contradicting the claimed Analyze → Transcode → Capture →
Split order. -/
theorem claim7_counterexample :
    (processVideo procD envHappy "in.mp4" "video.mp4" sysInit).2.trace
      = [Step.analyze, Step.capture 2, Step.compress, Step.split]
    ∧ (∃ arts, (processVideo procD envHappy "in.mp4" "video.mp4" sysInit).1
        = Except.ok arts)
    ∧ [Step.analyze, Step.capture 2, Step.compress, Step.split].findIdx
          isCaptureStep
        < [Step.analyze, Step.capture 2, Step.compress, Step.split].findIdx
          isCompressStep := by
  refine ⟨by rw [run_happy_eq], ⟨_, by rw [run_happy_eq]⟩, by decide⟩

/-! ### Forward evaluation of the split loop -/

/-- When every extraction and every stat succeeds, the split loop starting at
counter `i` with `r` iterations left appends the artifacts for part numbers
`i+1 … i+r`, creates their files, and records one extraction event per part,
segment `i+k` covering `[(i+k)*dpp, (i+k+1)*dpp)`. -/
lemma splitLoop_all_ok (env : Env) (videoPath dir base : String) (dpp : ℚ)
    (n : ℕ) (szf : String → ℕ)
    (hstat : env.statSize = fun q => Except.ok (szf q))
    (hex : env.extractErr = fun _ => none) :
    ∀ (r i : ℕ) (parts : List Artifact) (s : Sys),
      splitLoop env videoPath dir base dpp n i r parts s =
        (Except.ok (parts ++ (List.range' (i + 1) r).map (fun j =>
            { path := pathJoin dir (mkPartName base j),
              name := mkPartName base j,
              type := "video",
              size := szf (pathJoin dir (mkPartName base j)),
              part := some j,
              totalParts := some n })),
         { files := ((List.range' (i + 1) r).map (fun j =>
              pathJoin dir (mkPartName base j))).reverse ++ s.files,
           trace := s.trace ++ (List.range' i r).map (fun j =>
              Step.extract ((j : ℚ) * dpp) dpp) }) := by
  intro r
  induction r with
  | zero =>
      intro i parts s
      simp [splitLoop]
  | succ r ih =>
      intro i parts s
      have hstep : ((i : ℚ) + 1) * dpp - (i : ℚ) * dpp = dpp := by ring
      simp only [splitLoop, extractVideoSegment, getFileSize, hex, hstat,
        addFileS, pushStepS, hstep]
      rw [ih]
      simp [List.range'_succ, List.append_assoc]

/-- When the probe, every stat and every extraction succeed, `splitVideo`
returns the artifacts for part numbers `1 … partsNeeded` (with `partsNeeded =
⌈fileSizeMB / maxVideoSizeMB⌉` and `durationPerPart = duration /
partsNeeded`), deletes the pre-split file, and records one re-probe plus the
extraction events. -/
lemma splitVideo_all_ok (p : VideoProcessor) (env : Env)
    (videoPath origName : String) (szf : String → ℕ) (pd : ProbeData)
    (n : ℕ) (dpp : ℚ)
    (hstat : env.statSize = fun q => Except.ok (szf q))
    (hex : env.extractErr = fun _ => none)
    (hprobe : env.probe videoPath = Except.ok pd)
    (hn : n = (⌈((szf videoPath : ℕ) : ℚ) / (1024 * 1024) / p.maxVideoSizeMB⌉).toNat)
    (hdpp : dpp = pd.format.duration / (n : ℚ)) (s : Sys) :
    splitVideo p env videoPath origName s =
      (Except.ok ((List.range' 1 n).map (fun j =>
          { path := pathJoin (tempDir env) (mkPartName (parseNameBase origName) j),
            name := mkPartName (parseNameBase origName) j,
            type := "video",
            size := szf (pathJoin (tempDir env) (mkPartName (parseNameBase origName) j)),
            part := some j,
            totalParts := some n })),
       { files := (((List.range' 1 n).map (fun j =>
              pathJoin (tempDir env) (mkPartName (parseNameBase origName) j))).reverse
            ++ s.files).filter (fun q => decide (q ≠ videoPath)),
         trace := (s.trace ++ [Step.analyze]) ++ (List.range' 0 n).map (fun j =>
            Step.extract ((j : ℚ) * dpp) dpp) }) := by
  simp only [splitVideo, analyzeVideo, getFileSize, hprobe, hstat]
  rw [← hn, ← hdpp,
    splitLoop_all_ok env videoPath (tempDir env) (parseNameBase origName) dpp n
      szf hstat hex n 0 [] (pushStepS Step.analyze s)]
  simp [fsRemoveS, pushStepS]

/-- C1 (confirmed): with `sizeMB = fileSize/(1024*1024)`, if `sizeMB ≤
maxVideoSizeMB` the split step returns exactly one video artifact wrapping
the transcoded file unchanged — same path, no copy, no re-encode, no
`part`/`totalParts` fields, and the state changes only by the completion
marker; otherwise it returns exactly `partsNeeded = ⌈sizeMB /
maxVideoSizeMB⌉` video artifacts, the one at position `j` named
`<base>_part<j>.mp4` and tagged `part = j`, `totalParts = partsNeeded` for
`j = 1 … partsNeeded`. -/
theorem claim1_checkAndSplit_partition (p : VideoProcessor) (env : Env)
    (videoPath origName : String) (szf : String → ℕ) (pd : ProbeData) (s : Sys)
    (hstat : env.statSize = fun q => Except.ok (szf q))
    (hex : env.extractErr = fun _ => none)
    (hprobe : env.probe videoPath = Except.ok pd) :
    (((szf videoPath : ℕ) : ℚ) / (1024 * 1024) ≤ p.maxVideoSizeMB →
      checkAndSplitVideo p env videoPath origName s =
        (Except.ok [{ path := videoPath, name := baseNameOf videoPath,
                      type := "video", size := szf videoPath,
                      part := none, totalParts := none }],
         pushStepS Step.split s))
    ∧ (p.maxVideoSizeMB < ((szf videoPath : ℕ) : ℚ) / (1024 * 1024) →
      (checkAndSplitVideo p env videoPath origName s).1 =
        Except.ok ((List.range' 1
            ((⌈((szf videoPath : ℕ) : ℚ) / (1024 * 1024) / p.maxVideoSizeMB⌉).toNat)).map
          (fun j =>
            { path := pathJoin (tempDir env)
                (mkPartName (parseNameBase origName) j),
              name := mkPartName (parseNameBase origName) j,
              type := "video",
              size := szf (pathJoin (tempDir env)
                (mkPartName (parseNameBase origName) j)),
              part := some j,
              totalParts := some
                ((⌈((szf videoPath : ℕ) : ℚ) / (1024 * 1024) / p.maxVideoSizeMB⌉).toNat) }))) := by
  constructor
  · intro hle
    simp [checkAndSplitVideo, getFileSize, hstat, hle]
  · intro hgt
    have hnle : ¬ (((szf videoPath : ℕ) : ℚ) / (1024 * 1024) ≤ p.maxVideoSizeMB) :=
      not_le.mpr hgt
    simp only [checkAndSplitVideo, getFileSize, hstat, hnle, if_false]
    rw [splitVideo_all_ok p env videoPath origName szf pd
      ((⌈((szf videoPath : ℕ) : ℚ) / (1024 * 1024) / p.maxVideoSizeMB⌉).toNat)
      (pd.format.duration /
        (((⌈((szf videoPath : ℕ) : ℚ) / (1024 * 1024) / p.maxVideoSizeMB⌉).toNat : ℕ) : ℚ))
      hstat hex hprobe rfl rfl s]

/-- Environment where every file stats at 250 MB (splits into 3 parts). -/
def envBig250 : Env :=
  { probe := fun _ => Except.ok pdBig
    statSize := fun _ => Except.ok 262144000
    screenshotErr := none
    compressErr := none
    extractErr := fun _ => none
    tempDirVar := none }

/-- Witness for C1: a 5-byte file is returned unchanged as a single untagged
artifact; a 250 MB file against the 98 MB ceiling yields exactly the three
tagged part artifacts. -/
theorem claim1_witness :
    checkAndSplitVideo procD envHappy "temp/video_processed.mp4" "video.mp4"
        sysInit =
      (Except.ok [{ path := "temp/video_processed.mp4",
                    name := "video_processed.mp4", type := "video", size := 5,
                    part := none, totalParts := none }],
       pushStepS Step.split sysInit)
    ∧ (checkAndSplitVideo procD envBig250 "temp/video_processed.mp4"
        "video.mp4" sysInit).1 =
      Except.ok
        [{ path := "temp/video_part1.mp4", name := "video_part1.mp4",
           type := "video", size := 262144000, part := some 1,
           totalParts := some 3 },
         { path := "temp/video_part2.mp4", name := "video_part2.mp4",
           type := "video", size := 262144000, part := some 2,
           totalParts := some 3 },
         { path := "temp/video_part3.mp4", name := "video_part3.mp4",
           type := "video", size := 262144000, part := some 3,
           totalParts := some 3 }] := by
  constructor
  · have h := (claim1_checkAndSplit_partition procD envHappy
        "temp/video_processed.mp4" "video.mp4" (fun _ => 5) pdDur1 sysInit
        rfl rfl rfl).1 (by norm_num [procD])
    simpa +decide [baseNameOf, splitOnChar, splitOnCharList] using h
  · have h := (claim1_checkAndSplit_partition procD envBig250
        "temp/video_processed.mp4" "video.mp4" (fun _ => 262144000) pdBig
        sysInit rfl rfl rfl).2 (by norm_num [procD])
    have hn : (⌈(262144000 : ℚ) / (1024 * 1024) / 98⌉).toNat = 3 := by
      have hc : ⌈(262144000 : ℚ) / (1024 * 1024) / 98⌉ = 3 := by
        norm_num [Int.ceil_eq_iff]
      rw [hc]
      rfl
    simpa +decide [procD, tempDir, jsOrDefaultStr, pathJoin, parseNameBase,
      splitOnChar, splitOnCharList, mkPartName, List.range', hn] using h

/-- C8 (confirmed): in the splitting branch the extraction requests are
exactly the ranges `[j*durationPerPart, (j+1)*durationPerPart)` for `j = 0 …
partsNeeded-1` — each request has start `j*durationPerPart` and length
`durationPerPart` — so the requested ranges tile the video and the requested
lengths sum to the total duration (`partsNeeded * durationPerPart =
duration`, exactly over ℚ). -/
theorem claim8_segment_ranges (p : VideoProcessor) (env : Env)
    (videoPath origName : String) (szf : String → ℕ) (pd : ProbeData)
    (n : ℕ) (dpp : ℚ) (s : Sys)
    (hstat : env.statSize = fun q => Except.ok (szf q))
    (hex : env.extractErr = fun _ => none)
    (hprobe : env.probe videoPath = Except.ok pd)
    (hmax : 0 < p.maxVideoSizeMB)
    (hgt : p.maxVideoSizeMB < ((szf videoPath : ℕ) : ℚ) / (1024 * 1024))
    (hn : n = (⌈((szf videoPath : ℕ) : ℚ) / (1024 * 1024) / p.maxVideoSizeMB⌉).toNat)
    (hdpp : dpp = pd.format.duration / (n : ℚ)) :
    (checkAndSplitVideo p env videoPath origName s).2.trace =
        s.trace ++ [Step.analyze]
          ++ (List.range' 0 n).map (fun j => Step.extract ((j : ℚ) * dpp) dpp)
          ++ [Step.split]
    ∧ 2 ≤ n
    ∧ (n : ℚ) * dpp = pd.format.duration := by
  have h2 : 2 ≤ n := by
    have h1 : (1 : ℚ) < ((szf videoPath : ℕ) : ℚ) / (1024 * 1024) / p.maxVideoSizeMB :=
      (one_lt_div hmax).mpr hgt
    have hc : (1 : ℤ) < ⌈((szf videoPath : ℕ) : ℚ) / (1024 * 1024) / p.maxVideoSizeMB⌉ := by
      rw [Int.lt_ceil]
      exact_mod_cast h1
    rw [hn]
    omega
  have hne : ((n : ℕ) : ℚ) ≠ 0 := Nat.cast_ne_zero.mpr (by omega)
  refine ⟨?_, h2, ?_⟩
  · have hnle : ¬ (((szf videoPath : ℕ) : ℚ) / (1024 * 1024) ≤ p.maxVideoSizeMB) :=
      not_le.mpr hgt
    simp only [checkAndSplitVideo, getFileSize, hstat, hnle, if_false]
    rw [splitVideo_all_ok p env videoPath origName szf pd n dpp hstat hex
      hprobe hn hdpp s]
    simp [pushStepS, List.append_assoc]
  · rw [hdpp]
    field_simp

/-- Witness for C8 at the 250 MB / 98 MB / 300 s instance: three requests
covering [0,100), [100,200), [200,300), summing to the full duration. -/
theorem claim8_witness :
    (checkAndSplitVideo procD envBig250 "temp/video_processed.mp4" "video.mp4"
        sysInit).2.trace =
      [Step.analyze, Step.extract 0 100, Step.extract 100 100,
       Step.extract 200 100, Step.split]
    ∧ (2 : ℕ) ≤ 3
    ∧ ((3 : ℕ) : ℚ) * 100 = pdBig.format.duration := by
  have h := claim8_segment_ranges procD envBig250 "temp/video_processed.mp4"
    "video.mp4" (fun _ => 262144000) pdBig 3 100 sysInit rfl rfl rfl
    (by norm_num [procD]) (by norm_num [procD])
    (by
      have hc2 : ⌈((262144000 : ℕ) : ℚ) / (1024 * 1024) / procD.maxVideoSizeMB⌉ = 3 := by
        norm_num [procD, Int.ceil_eq_iff]
      rw [hc2]
      rfl)
    (by norm_num [pdBig])
  refine ⟨?_, by norm_num, by norm_num [pdBig]⟩
  have ht := h.1
  norm_num [sysInit, List.range'] at ht
  exact ht

/-! ### Inversion lemmas: what a successful stage implies about its output -/

/-- The stat size under the oracle, defaulting to 0 on stat failure (only
used to describe runs in which every consulted stat succeeded). -/
def statSizeD (env : Env) (q : String) : ℕ :=
  match env.statSize q with
  | Except.ok m => m
  | Except.error _ => 0

/-- A successful probe stage appends exactly the analyze event. -/
lemma analyzeVideo_ok_state {env : Env} {ip : String} {s : Sys}
    {v : VideoInfo} {s' : Sys}
    (h : analyzeVideo env ip s = (Except.ok v, s')) :
    s' = pushStepS Step.analyze s := by
  cases hp : env.probe ip with
  | error e => simp [analyzeVideo, hp] at h
  | ok md =>
      simp [analyzeVideo, hp] at h
      exact h.2.symm

/-- A successful capture stage returns the thumbnail path, creates that file
and appends exactly the capture event carrying the configured timestamp. -/
lemma captureFrame_ok_state {p : VideoProcessor} {env : Env}
    {ip origName : String} {s : Sys} {v : String} {s' : Sys}
    (h : captureFrame p env ip origName s = (Except.ok v, s')) :
    v = pathJoin (tempDir env) (parseNameBase origName ++ "_thumbnail.jpg")
    ∧ s' = addFileS (pathJoin (tempDir env)
          (parseNameBase origName ++ "_thumbnail.jpg"))
        (pushStepS (Step.capture p.frameCaptureTime) s) := by
  cases hs : env.screenshotErr with
  | none =>
      simp [captureFrame, hs] at h
      exact ⟨h.1.symm, h.2.symm⟩
  | some e => simp [captureFrame, hs] at h

/-- A successful encode stage returns the processed path, creates that file
and appends exactly the compress event. -/
lemma compressVideo_ok_state {p : VideoProcessor} {env : Env}
    {ip origName : String} {s : Sys} {v : String} {s' : Sys}
    (h : compressVideo p env ip origName s = (Except.ok v, s')) :
    v = pathJoin (tempDir env) (parseNameBase origName ++ "_processed.mp4")
    ∧ s' = addFileS (pathJoin (tempDir env)
          (parseNameBase origName ++ "_processed.mp4"))
        (pushStepS Step.compress s) := by
  cases hs : env.compressErr with
  | none =>
      simp [compressVideo, hs] at h
      exact ⟨h.1.symm, h.2.symm⟩
  | some e => simp [compressVideo, hs] at h

/-- A successful stat leaves the state untouched. -/
lemma getFileSize_ok {env : Env} {q : String} {s : Sys} {v : ℕ} {s' : Sys}
    (h : getFileSize env q s = (Except.ok v, s')) :
    env.statSize q = Except.ok v ∧ s' = s := by
  cases hq : env.statSize q with
  | error e => simp [getFileSize, hq] at h
  | ok m =>
      simp [getFileSize, hq] at h
      exact ⟨by rw [h.1], h.2.symm⟩

/-- If the split loop succeeds, the returned list appends exactly the
artifacts for part numbers `i+1 … i+r` (tags included) and the trace only
grew by extraction events. -/
lemma splitLoop_ok_inv (env : Env) (videoPath dir base : String) (dpp : ℚ)
    (n : ℕ) :
    ∀ (r i : ℕ) (parts : List Artifact) (s : Sys) (v : List Artifact)
      (s' : Sys),
      splitLoop env videoPath dir base dpp n i r parts s = (Except.ok v, s') →
      v = parts ++ (List.range' (i + 1) r).map (fun j =>
          { path := pathJoin dir (mkPartName base j),
            name := mkPartName base j,
            type := "video",
            size := statSizeD env (pathJoin dir (mkPartName base j)),
            part := some j,
            totalParts := some n })
        ∧ ∃ t, s'.trace = s.trace ++ t ∧ ∀ e ∈ t, ∃ a b, e = Step.extract a b := by
  intro r
  induction r with
  | zero =>
      intro i parts s v s' h
      simp [splitLoop] at h
      exact ⟨by simp [h.1.symm], ⟨[], by simp [h.2.symm], by simp⟩⟩
  | succ r ih =>
      intro i parts s v s' h
      simp only [splitLoop, extractVideoSegment, getFileSize] at h
      cases hx : env.extractErr (pathJoin dir (mkPartName base (i + 1))) with
      | some e => rw [hx] at h; simp at h
      | none =>
          rw [hx] at h
          cases hq : env.statSize (pathJoin dir (mkPartName base (i + 1))) with
          | error e => rw [hq] at h; simp at h
          | ok m =>
              rw [hq] at h
              obtain ⟨hv, t, ht, hall⟩ := ih (i + 1) _ _ _ _ h
              constructor
              · rw [hv]
                simp [List.range'_succ, statSizeD, hq]
              · refine ⟨Step.extract ((i : ℚ) * dpp)
                    (((i : ℚ) + 1) * dpp - (i : ℚ) * dpp) :: t, ?_, ?_⟩
                · rw [ht]
                  simp [addFileS, pushStepS]
                · intro e he
                  rcases List.mem_cons.mp he with rfl | he'
                  · exact ⟨_, _, rfl⟩
                  · exact hall e he'

/-- If `splitVideo` succeeds, the returned list has exactly the
`1 … partsNeeded` tagged-part shape for some `partsNeeded`, and the trace
grew by the re-probe followed by extraction events only. -/
lemma splitVideo_ok_inv {p : VideoProcessor} {env : Env}
    {videoPath origName : String} {s : Sys} {v : List Artifact} {s' : Sys}
    (h : splitVideo p env videoPath origName s = (Except.ok v, s')) :
    (∃ n : ℕ, v = (List.range' 1 n).map (fun j =>
        { path := pathJoin (tempDir env) (mkPartName (parseNameBase origName) j),
          name := mkPartName (parseNameBase origName) j,
          type := "video",
          size := statSizeD env
            (pathJoin (tempDir env) (mkPartName (parseNameBase origName) j)),
          part := some j,
          totalParts := some n }))
    ∧ ∃ t, s'.trace = s.trace ++ Step.analyze :: t
        ∧ ∀ e ∈ t, ∃ a b, e = Step.extract a b := by
  cases hp : env.probe videoPath with
  | error e => simp [splitVideo, analyzeVideo, hp] at h
  | ok pd =>
      simp only [splitVideo, analyzeVideo, getFileSize, hp] at h
      cases hq : env.statSize videoPath with
      | error e => simp [hq] at h
      | ok fsz =>
          simp only [hq] at h
          split at h
          · exact absurd (congrArg Prod.fst h) (by simp)
          · next parts s3 hloop =>
              simp only [Prod.mk.injEq, Except.ok.injEq] at h
              obtain ⟨hv, hs'⟩ := h
              obtain ⟨hparts, t, ht, hall⟩ :=
                splitLoop_ok_inv env videoPath (tempDir env)
                  (parseNameBase origName) _ _ _ 0 [] _ _ _ hloop
              constructor
              · refine ⟨(⌈((fsz : ℕ) : ℚ) / (1024 * 1024) / p.maxVideoSizeMB⌉).toNat, ?_⟩
                rw [← hv, hparts]
                simp
              · refine ⟨t, ?_, hall⟩
                rw [← hs']
                simp only [fsRemoveS]
                rw [ht]
                simp [pushStepS]

/-- If the decide-and-split stage succeeds, every returned artifact is a
video, the artifact at position `k` is either untagged (single-file branch)
or tagged `part = k+1` (split branch), and the trace grew by analyze/extract
events capped by the split completion marker. -/
lemma checkAndSplitVideo_ok_inv {p : VideoProcessor} {env : Env}
    {videoPath origName : String} {s : Sys} {v : List Artifact} {s' : Sys}
    (h : checkAndSplitVideo p env videoPath origName s = (Except.ok v, s')) :
    (∀ a ∈ v, a.type = "video")
    ∧ (∀ k (hk : k < v.length),
        (v.get ⟨k, hk⟩).part = none ∨ (v.get ⟨k, hk⟩).part = some (k + 1))
    ∧ ∃ mid, s'.trace = s.trace ++ mid ++ [Step.split]
        ∧ ∀ e ∈ mid, e = Step.analyze ∨ ∃ a b, e = Step.extract a b := by
  cases hq : env.statSize videoPath with
  | error e => simp [checkAndSplitVideo, getFileSize, hq] at h
  | ok fsz =>
      simp only [checkAndSplitVideo, getFileSize, hq] at h
      split at h
      · simp only [Prod.mk.injEq, Except.ok.injEq] at h
        obtain ⟨hv, hs'⟩ := h
        subst hv
        refine ⟨?_, ?_, [], ?_, by simp⟩
        · intro a ha
          simp at ha
          rw [ha]
        · intro k hk
          left
          have hk0 : k = 0 := by simpa using hk
          subst hk0
          rfl
        · rw [← hs']
          simp [pushStepS]
      · split at h
        · exact absurd (congrArg Prod.fst h) (by simp)
        · next parts s3 hsplit =>
            simp only [Prod.mk.injEq, Except.ok.injEq] at h
            obtain ⟨hv, hs'⟩ := h
            subst hv
            obtain ⟨⟨n, hn⟩, t, ht, hall⟩ := splitVideo_ok_inv hsplit
            subst hn
            refine ⟨?_, ?_, Step.analyze :: t, ?_, ?_⟩
            · intro a ha
              simp at ha
              obtain ⟨j, _, rfl⟩ := ha
              rfl
            · intro k hk
              right
              simp [List.getElem_map, List.getElem_range', Nat.add_comm]
            · rw [← hs']
              simp only [pushStepS]
              rw [ht]
            · intro e he
              rcases List.mem_cons.mp he with rfl | he'
              · exact Or.inl rfl
              · exact Or.inr (hall e he')

/-- Combined inversion for a successful `processVideo` run: the artifact list
is the video artifacts followed by exactly the one thumbnail artifact, the
video artifacts are typed and tagged as produced by the split stage, and the
trace is analyze, capture (at the configured timestamp), compress, then the
split stage's internal events, capped by the split completion marker. -/
lemma processVideo_ok_inv {p : VideoProcessor} {env : Env}
    {inputPath origName : String} {s : Sys} {arts : List Artifact} {s' : Sys}
    (h : processVideo p env inputPath origName s = (Except.ok arts, s')) :
    ∃ vids tsz mid,
      arts = vids ++
        [{ path := pathJoin (tempDir env)
             (parseNameBase origName ++ "_thumbnail.jpg"),
           name := parseNameBase origName ++ "_thumbnail.jpg",
           type := "thumbnail", size := tsz, part := none,
           totalParts := none }]
      ∧ (∀ a ∈ vids, a.type = "video")
      ∧ (∀ k (hk : k < vids.length),
          (vids.get ⟨k, hk⟩).part = none ∨ (vids.get ⟨k, hk⟩).part = some (k + 1))
      ∧ s'.trace = s.trace
          ++ [Step.analyze, Step.capture p.frameCaptureTime, Step.compress]
          ++ mid ++ [Step.split]
      ∧ ∀ e ∈ mid, e = Step.analyze ∨ ∃ a b, e = Step.extract a b := by
  simp only [processVideo] at h
  split at h
  · exact absurd (congrArg Prod.fst h) (by simp)
  · next info s1 h1 =>
      split at h
      · exact absurd (congrArg Prod.fst h) (by simp)
      · next thumbPath s2 h2 =>
          split at h
          · exact absurd (congrArg Prod.fst h) (by simp)
          · next processedPath s3 h3 =>
              split at h
              · exact absurd (congrArg Prod.fst h) (by simp)
              · next vids s4 h4 =>
                  split at h
                  · exact absurd (congrArg Prod.fst h) (by simp)
                  · next tsz s5 h5 =>
                      simp only [Prod.mk.injEq, Except.ok.injEq] at h
                      obtain ⟨harts, hs5⟩ := h
                      have e1 := analyzeVideo_ok_state h1
                      obtain ⟨ev2, e2⟩ := captureFrame_ok_state h2
                      obtain ⟨ev3, e3⟩ := compressVideo_ok_state h3
                      obtain ⟨hvt, hvp, mid, hmid, hml⟩ :=
                        checkAndSplitVideo_ok_inv h4
                      have e5 := (getFileSize_ok h5).2
                      refine ⟨vids, tsz, mid, ?_, hvt, hvp, ?_, hml⟩
                      · rw [← harts, ev2]
                      · rw [← hs5, e5, hmid, e3, e2, e1]
                        simp [addFileS, pushStepS, List.append_assoc]

/-- C7 (corrected): within one job the steps run strictly sequentially — the
embedding is a chain where each stage receives the previous stage's state —
but in the order Analyze, then Capture thumbnail, then Transcode, then
Decide/Split: every successful run's trace is analyze, capture, compress,
then the split stage's internal events (re-probe and extractions), ending
with the split completion marker. -/
theorem claim7_sequential_order (p : VideoProcessor) (env : Env)
    (inputPath origName : String) (s : Sys) (arts : List Artifact) (s' : Sys)
    (h : processVideo p env inputPath origName s = (Except.ok arts, s')) :
    ∃ mid, s'.trace = s.trace
        ++ [Step.analyze, Step.capture p.frameCaptureTime, Step.compress]
        ++ mid ++ [Step.split]
      ∧ ∀ e ∈ mid, e = Step.analyze ∨ ∃ a b, e = Step.extract a b := by
  obtain ⟨vids, tsz, mid, _, _, _, htr, hml⟩ := processVideo_ok_inv h
  exact ⟨mid, htr, hml⟩

/-- Witness for C7's corrected statement at the happy-path run. -/
theorem claim7_witness :
    ∃ mid,
      (Sys.mk ["temp/video_processed.mp4", "temp/video_thumbnail.jpg"]
          [Step.analyze, Step.capture 2, Step.compress, Step.split]).trace =
        sysInit.trace
          ++ [Step.analyze, Step.capture procD.frameCaptureTime, Step.compress]
          ++ mid ++ [Step.split]
      ∧ ∀ e ∈ mid, e = Step.analyze ∨ ∃ a b, e = Step.extract a b :=
  claim7_sequential_order procD envHappy "in.mp4" "video.mp4" sysInit _ _
    run_happy_eq

/-- C9 (confirmed): every successful job returns the video artifacts —
in ascending part order, the artifact at position `k` untagged or tagged
`k+1` — followed by exactly one thumbnail artifact as the final element;
the list never contains more or fewer than one thumbnail. -/
theorem claim9_artifact_list_shape (p : VideoProcessor) (env : Env)
    (inputPath origName : String) (s : Sys) (arts : List Artifact) (s' : Sys)
    (h : processVideo p env inputPath origName s = (Except.ok arts, s')) :
    ∃ videos thumb,
      arts = videos ++ [thumb]
      ∧ thumb.type = "thumbnail"
      ∧ thumb.name = parseNameBase origName ++ "_thumbnail.jpg"
      ∧ (∀ a ∈ videos, a.type = "video")
      ∧ (arts.filter (fun a => decide (a.type = "thumbnail"))).length = 1
      ∧ ∀ k (hk : k < videos.length),
          (videos.get ⟨k, hk⟩).part = none
            ∨ (videos.get ⟨k, hk⟩).part = some (k + 1) := by
  obtain ⟨vids, tsz, mid, harts, hvt, hvp, _, _⟩ := processVideo_ok_inv h
  refine ⟨vids, _, harts, rfl, rfl, hvt, ?_, hvp⟩
  have hv0 : List.filter (fun a => decide (a.type = "thumbnail")) vids = [] := by
    rw [List.filter_eq_nil_iff]
    intro a ha
    rw [hvt a ha]
    decide
  rw [harts, List.filter_append, hv0]
  simp

/-- Witness for C9 at the happy-path run: one video artifact followed by the
thumbnail. -/
theorem claim9_witness :
    ∃ videos thumb,
      [({ path := "temp/video_processed.mp4", name := "video_processed.mp4",
          type := "video", size := 5, part := none,
          totalParts := none } : Artifact),
       { path := "temp/video_thumbnail.jpg", name := "video_thumbnail.jpg",
         type := "thumbnail", size := 5, part := none, totalParts := none }]
        = videos ++ [thumb]
      ∧ thumb.type = "thumbnail"
      ∧ thumb.name = parseNameBase "video.mp4" ++ "_thumbnail.jpg"
      ∧ (∀ a ∈ videos, a.type = "video")
      ∧ (([({ path := "temp/video_processed.mp4", name := "video_processed.mp4",
              type := "video", size := 5, part := none,
              totalParts := none } : Artifact),
           { path := "temp/video_thumbnail.jpg", name := "video_thumbnail.jpg",
             type := "thumbnail", size := 5, part := none,
             totalParts := none }]).filter
          (fun a => decide (a.type = "thumbnail"))).length = 1
      ∧ ∀ k (hk : k < videos.length),
          (videos.get ⟨k, hk⟩).part = none
            ∨ (videos.get ⟨k, hk⟩).part = some (k + 1) :=
  claim9_artifact_list_shape procD envHappy "in.mp4" "video.mp4" sysInit _ _
    run_happy_eq

/-! ### The failure paths delete nothing -/

/-- Appending distinct suffixes to the same string yields distinct
strings. -/
lemma append_ne_of_ne_right (b : String) {x y : String} (h : x ≠ y) :
    b ++ x ≠ b ++ y := by
  intro he
  apply h
  apply String.ext
  have hd := congrArg String.data he
  rw [String.data_append, String.data_append] at hd
  exact List.append_cancel_left hd

/-- The thumbnail path and the processed-video path of one job never
coincide. -/
lemma thumb_ne_processed (dir base : String) :
    pathJoin dir (base ++ "_thumbnail.jpg") ≠ pathJoin dir (base ++ "_processed.mp4") := by
  unfold pathJoin
  apply append_ne_of_ne_right
  apply append_ne_of_ne_right
  decide

/-- A stat never changes the state, whatever its outcome. -/
lemma getFileSize_snd (env : Env) (q : String) (s : Sys) :
    (getFileSize env q s).2 = s := by
  cases h : env.statSize q <;> simp [getFileSize, h]

/-- The split loop never deletes a file, whatever its outcome. -/
lemma splitLoop_files_mono (env : Env) (videoPath dir base : String)
    (dpp : ℚ) (n : ℕ) :
    ∀ (r i : ℕ) (parts : List Artifact) (s : Sys) res (s' : Sys),
      splitLoop env videoPath dir base dpp n i r parts s = (res, s') →
      ∀ x ∈ s.files, x ∈ s'.files := by
  intro r
  induction r with
  | zero =>
      intro i parts s res s' h x hx
      simp [splitLoop] at h
      rw [← h.2]
      exact hx
  | succ r ih =>
      intro i parts s res s' h x hx
      simp only [splitLoop, extractVideoSegment, getFileSize] at h
      cases hex : env.extractErr (pathJoin dir (mkPartName base (i + 1))) with
      | some e =>
          simp only [hex] at h
          injection h with h1 h2
          subst h2
          exact hx
      | none =>
          simp only [hex] at h
          cases hq : env.statSize (pathJoin dir (mkPartName base (i + 1))) with
          | error e =>
              simp only [hq] at h
              injection h with h1 h2
              subst h2
              simp [addFileS, pushStepS]
              exact Or.inr hx
          | ok m =>
              simp only [hq] at h
              refine ih _ _ _ _ _ h x ?_
              simp [addFileS, pushStepS]
              exact Or.inr hx

/-- `splitVideo` deletes nothing except (on a fully successful split) the
pre-split file itself, whatever its outcome. -/
lemma splitVideo_files_mono {p : VideoProcessor} {env : Env}
    {videoPath origName : String} {s : Sys} {res} {s' : Sys}
    (h : splitVideo p env videoPath origName s = (res, s')) :
    ∀ x ∈ s.files, x ≠ videoPath → x ∈ s'.files := by
  intro x hx hne
  cases hp : env.probe videoPath with
  | error e =>
      simp [splitVideo, analyzeVideo, hp] at h
      rw [← h.2]
      exact hx
  | ok pd =>
      simp only [splitVideo, analyzeVideo, getFileSize, hp] at h
      cases hq : env.statSize videoPath with
      | error e =>
          simp only [hq] at h
          injection h with h1 h2
          subst h2
          simpa [pushStepS] using hx
      | ok fsz =>
          simp only [hq] at h
          have hx1 : x ∈ (pushStepS Step.analyze s).files := by
            simpa [pushStepS] using hx
          split at h
          · next e sl heq =>
              injection h with h1 h2
              subst h2
              exact splitLoop_files_mono _ _ _ _ _ _ _ _ _ _ _ _ heq x hx1
          · next parts sl heq =>
              injection h with h1 h2
              subst h2
              have hm := splitLoop_files_mono _ _ _ _ _ _ _ _ _ _ _ _ heq x hx1
              simp [fsRemoveS, List.mem_filter, hm, hne]

/-- The decide-and-split stage deletes nothing except (on a fully successful
split) the pre-split file itself, whatever its outcome. -/
lemma checkAndSplitVideo_files_mono {p : VideoProcessor} {env : Env}
    {videoPath origName : String} {s : Sys} {res} {s' : Sys}
    (h : checkAndSplitVideo p env videoPath origName s = (res, s')) :
    ∀ x ∈ s.files, x ≠ videoPath → x ∈ s'.files := by
  intro x hx hne
  cases hq : env.statSize videoPath with
  | error e =>
      simp [checkAndSplitVideo, getFileSize, hq] at h
      rw [← h.2]
      exact hx
  | ok fsz =>
      simp only [checkAndSplitVideo, getFileSize, hq] at h
      split at h
      · injection h with h1 h2
        subst h2
        simpa [pushStepS] using hx
      · split at h
        · next e sl heq =>
            injection h with h1 h2
            subst h2
            exact splitVideo_files_mono heq x hx hne
        · next parts sl heq =>
            injection h with h1 h2
            subst h2
            have hm := splitVideo_files_mono heq x hx hne
            simpa [pushStepS] using hm

/-- When extractions succeed for part numbers below `j` and fail at part `j`,
the split loop reaching part `j` (started at counter `c` with `j = c+1+d`
and enough iterations left) aborts with the extraction error; the partial
segment files for parts `c+1 … j-1` have been created and nothing has been
deleted. -/
lemma splitLoop_fail_eq (env : Env) (videoPath dir base : String) (dpp : ℚ)
    (n : ℕ) (szf : String → ℕ) (j : ℕ) (e : String)
    (hstat : env.statSize = fun q => Except.ok (szf q))
    (hexlt : ∀ i, 1 ≤ i → i < j →
      env.extractErr (pathJoin dir (mkPartName base i)) = none)
    (hexj : env.extractErr (pathJoin dir (mkPartName base j)) = some e) :
    ∀ (r c d : ℕ) (parts : List Artifact) (s : Sys),
      j = c + 1 + d → j ≤ c + r →
      splitLoop env videoPath dir base dpp n c r parts s =
        (Except.error ("Failed to extract video segment: " ++ e),
         { files := ((List.range' (c + 1) d).map
              (fun i => pathJoin dir (mkPartName base i))).reverse ++ s.files,
           trace := s.trace ++ (List.range' c d).map
              (fun i => Step.extract ((i : ℚ) * dpp) dpp) }) := by
  intro r
  induction r with
  | zero =>
      intro c d parts s h1 h2
      omega
  | succ r ih =>
      intro c d parts s h1 h2
      cases d with
      | zero =>
          have hx : env.extractErr (pathJoin dir (mkPartName base (c + 1))) = some e := by
            rw [show c + 1 = j by omega]
            exact hexj
          simp [splitLoop, extractVideoSegment, hx]
      | succ d =>
          have hnone := hexlt (c + 1) (by omega) (by omega)
          have hstep : ((c : ℚ) + 1) * dpp - (c : ℚ) * dpp = dpp := by ring
          simp only [splitLoop, extractVideoSegment, getFileSize, hnone, hstat,
            addFileS, pushStepS, hstep]
          rw [ih (c + 1) d _ _ (by omega) (by omega)]
          simp [List.range'_succ, List.append_assoc]

/-- When extractions succeed for part numbers below `j` and fail at part
`j ≤ partsNeeded`, `splitVideo` aborts with the extraction error after the
re-probe and the `j-1` successful extractions; the pre-split file is not
removed and the partial segment files remain. -/
lemma splitVideo_fail_eq (p : VideoProcessor) (env : Env)
    (videoPath origName : String) (szf : String → ℕ) (pd : ProbeData)
    (n : ℕ) (dpp : ℚ) (j d : ℕ) (e : String)
    (hstat : env.statSize = fun q => Except.ok (szf q))
    (hprobe : env.probe videoPath = Except.ok pd)
    (hn : n = (⌈((szf videoPath : ℕ) : ℚ) / (1024 * 1024) / p.maxVideoSizeMB⌉).toNat)
    (hdpp : dpp = pd.format.duration / (n : ℚ))
    (hexlt : ∀ i, 1 ≤ i → i < j →
      env.extractErr (pathJoin (tempDir env)
        (mkPartName (parseNameBase origName) i)) = none)
    (hexj : env.extractErr (pathJoin (tempDir env)
        (mkPartName (parseNameBase origName) j)) = some e)
    (hjd : j = 1 + d) (hjn : j ≤ n) (s : Sys) :
    splitVideo p env videoPath origName s =
      (Except.error ("Failed to extract video segment: " ++ e),
       { files := ((List.range' 1 d).map
            (fun i => pathJoin (tempDir env)
              (mkPartName (parseNameBase origName) i))).reverse ++ s.files,
         trace := (s.trace ++ [Step.analyze]) ++ (List.range' 0 d).map
            (fun i => Step.extract ((i : ℚ) * dpp) dpp) }) := by
  simp only [splitVideo, analyzeVideo, getFileSize, hprobe, hstat]
  rw [← hn, ← hdpp,
    splitLoop_fail_eq env videoPath (tempDir env) (parseNameBase origName) dpp
      n szf j e hstat hexlt hexj n 0 d [] (pushStepS Step.analyze s)
      (by omega) (by omega)]
  simp [pushStepS]

/-- C2 (corrected): on a stage failure `processVideo` rethrows the error
wrapped as "Failed to process video: …" and performs no cleanup.  Leg (a):
once the capture stage has created the thumbnail file (probe and screenshot
succeeded), the thumbnail is still present in the final state whatever every
later stage does — every later failure mode included.  Leg (b): when the
encode subprocess fails the job aborts with the wrapped encode error (and by
leg (a) the thumbnail survives it).  Leg (c): when extraction of segment `j`
fails mid-split — the earlier extractions succeeding — the job aborts with
the wrapped extraction error while the transcoded file and every partial
segment file `1 … j-1` are still on the filesystem. -/
theorem claim2_no_cleanup_on_failure (p : VideoProcessor) (env : Env)
    (inputPath origName : String) (s : Sys) :
    (∀ md, env.probe inputPath = Except.ok md → env.screenshotErr = none →
      pathJoin (tempDir env) (parseNameBase origName ++ "_thumbnail.jpg")
        ∈ (processVideo p env inputPath origName s).2.files)
    ∧ (∀ md e, env.probe inputPath = Except.ok md →
        env.screenshotErr = none → env.compressErr = some e →
      (processVideo p env inputPath origName s).1 =
        Except.error
          ("Failed to process video: " ++ ("Failed to compress video: " ++ e)))
    ∧ (∀ (szf : String → ℕ) md pd (j : ℕ) e,
        env.statSize = (fun q => Except.ok (szf q)) →
        env.probe inputPath = Except.ok md →
        env.screenshotErr = none →
        env.compressErr = none →
        env.probe (pathJoin (tempDir env)
          (parseNameBase origName ++ "_processed.mp4")) = Except.ok pd →
        p.maxVideoSizeMB <
          ((szf (pathJoin (tempDir env)
            (parseNameBase origName ++ "_processed.mp4")) : ℕ) : ℚ)
            / (1024 * 1024) →
        1 ≤ j →
        j ≤ (⌈((szf (pathJoin (tempDir env)
              (parseNameBase origName ++ "_processed.mp4")) : ℕ) : ℚ)
              / (1024 * 1024) / p.maxVideoSizeMB⌉).toNat →
        (∀ i, 1 ≤ i → i < j →
          env.extractErr (pathJoin (tempDir env)
            (mkPartName (parseNameBase origName) i)) = none) →
        env.extractErr (pathJoin (tempDir env)
            (mkPartName (parseNameBase origName) j)) = some e →
        (processVideo p env inputPath origName s).1 =
            Except.error ("Failed to process video: "
              ++ ("Failed to extract video segment: " ++ e))
          ∧ pathJoin (tempDir env) (parseNameBase origName ++ "_processed.mp4")
              ∈ (processVideo p env inputPath origName s).2.files
          ∧ ∀ i, 1 ≤ i → i < j →
              pathJoin (tempDir env) (mkPartName (parseNameBase origName) i)
                ∈ (processVideo p env inputPath origName s).2.files) := by
  refine ⟨?_, ?_, ?_⟩
  · intro md hpin hshot
    simp only [processVideo, analyzeVideo, captureFrame, hpin, hshot]
    cases hcomp : env.compressErr with
    | some e =>
        simp only [compressVideo, hcomp]
        simp [addFileS, pushStepS]
    | none =>
        simp only [compressVideo, hcomp]
        have hmem : pathJoin (tempDir env)
            (parseNameBase origName ++ "_thumbnail.jpg")
            ∈ (addFileS (pathJoin (tempDir env)
                (parseNameBase origName ++ "_processed.mp4"))
              (pushStepS Step.compress
                (addFileS (pathJoin (tempDir env)
                    (parseNameBase origName ++ "_thumbnail.jpg"))
                  (pushStepS (Step.capture p.frameCaptureTime)
                    (pushStepS Step.analyze s))))).files := by
          simp [addFileS, pushStepS]
        have hne := thumb_ne_processed (tempDir env) (parseNameBase origName)
        split
        · next e s4 heq =>
            have hm := checkAndSplitVideo_files_mono heq _ hmem hne
            simpa using hm
        · next v s4 heq =>
            have hm := checkAndSplitVideo_files_mono heq _ hmem hne
            split
            · next e s5 heq2 =>
                have h54 : s5 = s4 := by
                  have hh := getFileSize_snd env (pathJoin (tempDir env)
                    (parseNameBase origName ++ "_thumbnail.jpg")) s4
                  rw [heq2] at hh
                  exact hh
                subst h54
                simpa using hm
            · next tsz s5 heq2 =>
                have h54 : s5 = s4 := by
                  have hh := getFileSize_snd env (pathJoin (tempDir env)
                    (parseNameBase origName ++ "_thumbnail.jpg")) s4
                  rw [heq2] at hh
                  exact hh
                subst h54
                simpa using hm
  · intro md e hpin hshot hcomp
    simp [processVideo, analyzeVideo, captureFrame, compressVideo, hpin,
      hshot, hcomp]
  · intro szf md pd j e hstat hpin hshot hcomp hpproc hgt hj1 hjn hexlt hexj
    obtain ⟨d, hjd⟩ : ∃ d, j = 1 + d := ⟨j - 1, by omega⟩
    have hnle : ¬ (((szf (pathJoin (tempDir env)
        (parseNameBase origName ++ "_processed.mp4")) : ℕ) : ℚ)
        / (1024 * 1024) ≤ p.maxVideoSizeMB) := not_le.mpr hgt
    simp only [processVideo, analyzeVideo, captureFrame, compressVideo, hpin,
      hshot, hcomp, checkAndSplitVideo, getFileSize, hstat, hnle, if_false]
    rw [splitVideo_fail_eq p env _ origName szf pd _ _ j d e hstat hpproc
      rfl rfl hexlt hexj hjd hjn]
    refine ⟨rfl, ?_, ?_⟩
    · simp [addFileS, pushStepS]
    · intro i hi1 hi2
      simp only [addFileS, pushStepS]
      simp [List.mem_range'_1]
      exact Or.inl ⟨i, ⟨hi1, by omega⟩, rfl⟩

/-- Witness for C2's corrected statement: leg (a) at the split-failure run
(the thumbnail survives the mid-split abort), leg (b) at the
compress-failure run, leg (c) at the split-failure run with the second
extraction failing (the transcoded file and the first partial segment file
survive). -/
theorem claim2_witness :
    "temp/video_thumbnail.jpg"
        ∈ (processVideo procD envSplitFail "in.mp4" "video.mp4" sysInit).2.files
    ∧ (processVideo procD envCompressFail "in.mp4" "video.mp4" sysInit).1 =
        Except.error
          ("Failed to process video: " ++ ("Failed to compress video: " ++ "boom"))
    ∧ (processVideo procD envSplitFail "in.mp4" "video.mp4" sysInit).1 =
        Except.error ("Failed to process video: "
          ++ ("Failed to extract video segment: " ++ "segfault"))
    ∧ "temp/video_processed.mp4"
        ∈ (processVideo procD envSplitFail "in.mp4" "video.mp4" sysInit).2.files
    ∧ "temp/video_part1.mp4"
        ∈ (processVideo procD envSplitFail "in.mp4" "video.mp4" sysInit).2.files := by
  have ha := (claim2_no_cleanup_on_failure procD envSplitFail "in.mp4"
    "video.mp4" sysInit).1 pdBig rfl rfl
  have hb := (claim2_no_cleanup_on_failure procD envCompressFail "in.mp4"
    "video.mp4" sysInit).2.1 pdDur1 "boom" rfl rfl rfl
  have hc := (claim2_no_cleanup_on_failure procD envSplitFail "in.mp4"
    "video.mp4" sysInit).2.2
    (fun q => if q = "temp/video_processed.mp4" then 262144000 else 5)
    pdBig pdBig 2 "segfault" rfl rfl rfl rfl rfl
    (by
      show procD.maxVideoSizeMB < ((262144000 : ℕ) : ℚ) / (1024 * 1024)
      norm_num [procD])
    (by omega)
    (by
      show (2 : ℕ) ≤
        (⌈((262144000 : ℕ) : ℚ) / (1024 * 1024) / procD.maxVideoSizeMB⌉).toNat
      have hc2 : ⌈((262144000 : ℕ) : ℚ) / (1024 * 1024) / procD.maxVideoSizeMB⌉ = 3 := by
        norm_num [procD, Int.ceil_eq_iff]
      rw [hc2]
      decide)
    (by
      intro i h1 h2
      have hi : i = 1 := by omega
      subst hi
      decide)
    (by decide)
  exact ⟨ha, hb, hc.1, hc.2.1, hc.2.2 1 (by omega) (by omega)⟩

end UploadCloud
